import Mathlib

/-!
Verification development for the TC-48-20 temperature-controller tool
(`tc.py`).  The wire-level frame codec, the property accessor and the
thermal-cycling state machine are embedded as executable Lean functions;
byte strings are lists of natural numbers (ASCII codes), engineering
values are rationals, machine 16-bit integers are `Int` with explicit
two's-complement wrapping.
-/

set_option maxRecDepth 4000

/-! ## Frame codec (tc.py lines 62-84) -/

/-- ASCII code of the lowercase hex digit for a nibble `b < 16`,
as produced by Python `binascii.hexlify`. -/
def hexDigit (b : Nat) : Nat :=
  if b < 10 then 48 + b else 87 + b

/-- Two lowercase ASCII hex characters encoding the byte `b` (hexlify of one byte). -/
def hexByte (b : Nat) : List Nat :=
  [hexDigit (b / 16), hexDigit (b % 16)]

/-- Inverse of a single hex digit; accepts both cases like `binascii.unhexlify`,
`none` on a non-hex character. -/
def unhexDigit (c : Nat) : Option Nat :=
  if 48 ≤ c ∧ c ≤ 57 then some (c - 48)
  else if 97 ≤ c ∧ c ≤ 102 then some (c - 87)
  else if 65 ≤ c ∧ c ≤ 70 then some (c - 55)
  else none

/-- Decode two ASCII hex characters into a byte value (unhexlify of one byte). -/
def unhexByte (c₀ c₁ : Nat) : Option Nat :=
  match unhexDigit c₀, unhexDigit c₁ with
  | some h, some l => some (16 * h + l)
  | _, _ => none

/-- Embeds `calc_checksum` (tc.py line 62): sum of the bytes mod 256. -/
def calc_checksum (data_bytes : List Nat) : Nat :=
  data_bytes.sum % 256

/-- Two's-complement 16-bit image of a signed value, as laid out by
`struct.pack` format `>h` (big endian). -/
def toU16 (v : Int) : Nat :=
  (v % 65536).toNat

/-- Reading an unsigned 16-bit image back as a signed value, as done by
`struct.unpack` format `>h`. -/
def toI16 (u : Nat) : Int :=
  if u < 32768 then (u : Int) else (u : Int) - 65536

/-- Embeds `format_command` (tc.py lines 65-69): frame is
`'*'` (42), hexlify of `pack('>Bh', code, data)` (six hex characters:
two for the code byte, four for the big-endian signed value), the
hex-encoded checksum of those six characters, and `'\r'` (13).
`pack('>B', code)` raises outside 0..255; `send_command` below performs the
range check, so the `% 256` here only totalises the function. -/
def format_command (code : Nat) (data : Int) : List Nat :=
  let payload := hexByte (code % 256) ++ hexByte (toU16 data / 256) ++ hexByte (toU16 data % 256)
  42 :: (payload ++ hexByte (calc_checksum payload) ++ [13])

/-- Failure modes of `parse_reply`: the three raised messages
(reply invalid, reply checksum invalid, command checksum invalid) plus the
`binascii.Error` raised by `unhexlify` on a non-hex character. -/
inductive ReplyError
  | invalid
  | checksumInvalid
  | commandRejected
  | nonHexDigit
deriving DecidableEq, Repr

/-- Embeds `parse_reply` (tc.py lines 71-84).  Structural checks first
(length 8, leading `'*'` = 42, trailing `'^'` = 94), then the local
checksum over the four value characters is compared against the
transmitted checksum, then the literal `XXXX` (88,88,88,88) value field is
reported as a rejected command, and finally the value field is decoded as
a big-endian signed 16-bit integer. -/
def parse_reply (reply : List Nat) : Except ReplyError Int :=
  if reply.length ≠ 8 ∨ reply.getD 0 0 ≠ 42 ∨ reply.getLast? ≠ some 94 then
    .error .invalid
  else
    let v := (reply.drop 1).take 4
    let chksum := calc_checksum v
    match unhexByte (reply.getD 5 0) (reply.getD 6 0) with
    | none => .error .nonHexDigit
    | some reply_chksum =>
      if chksum ≠ reply_chksum then .error .checksumInvalid
      else if v = [88, 88, 88, 88] then .error .commandRejected
      else
        match unhexByte (reply.getD 1 0) (reply.getD 2 0),
              unhexByte (reply.getD 3 0) (reply.getD 4 0) with
        | some hi, some lo => .ok (toI16 (hi * 256 + lo))
        | _, _ => .error .nonHexDigit

/-- Reading a 4-hex-character value field back as a big-endian signed
16-bit integer, exactly the successful tail of `parse_reply`
(`unpack('>h', unhexlify(field))`). -/
def reparse_value (field : List Nat) : Option Int :=
  match field with
  | [a, b, c, d] =>
    match unhexByte a b, unhexByte c d with
    | some hi, some lo => some (toI16 (hi * 256 + lo))
    | _, _ => none
  | _ => none

/-! ## Transport port model and property accessor (tc.py lines 86-123) -/

/-- Model of the serial port: the frames written so far, and the byte
chunks the device will deliver to successive reads. -/
structure PortState where
  written : List (List Nat)
  replies : List (List Nat)
deriving DecidableEq, Repr

/-- Queue a frame on the port (`port.write`). -/
def PortState.putFrame (p : PortState) (frame : List Nat) : PortState :=
  { p with written := p.written ++ [frame] }

/-- Read up to `REPLY_LENGTH` = 8 bytes (`port.read(REPLY_LENGTH)`): the next
scripted chunk truncated to 8 bytes, or the empty buffer on timeout. -/
def PortState.getFrame (p : PortState) : List Nat × PortState :=
  match p.replies with
  | [] => ([], p)
  | r :: rest => (r.take 8, { p with replies := rest })

/-- Python `int()` applied to a rational: truncation toward zero. -/
def pyInt (q : ℚ) : Int :=
  if 0 ≤ q then ⌊q⌋ else ⌈q⌉

/-- Embeds `send_command` (tc.py lines 86-93).  `struct.pack` raises before
anything is written when the code is absent (`None`), out of byte range, or
the value does not fit a signed 16-bit integer; otherwise the frame is
written, 8 bytes are read, and the reply is parsed.  A raised parse error
is collapsed to `none` (the only callers, `read_property` and
`write_property`, catch every exception). -/
def send_command (port : PortState) (code : Option Nat) (value : Int) :
    Option Int × PortState :=
  match code with
  | none => (none, port)
  | some c =>
    if c ≤ 255 ∧ -32768 ≤ value ∧ value ≤ 32767 then
      let port₁ := port.putFrame (format_command c value)
      let (reply, port₂) := port₁.getFrame
      match parse_reply reply with
      | .ok v => (some v, port₂)
      | .error _ => (none, port₂)
    else (none, port)

/-- Embeds `send_scaled_command` (tc.py lines 95-103): the engineering value
is multiplied by the scaling and truncated by Python `int()`, and the raw
reply is divided by the scaling. -/
def send_scaled_command (port : PortState) (code : Option Nat) (value scaling : ℚ) :
    Option ℚ × PortState :=
  let (r, port') := send_command port code (pyInt (value * scaling))
  (r.map (fun x => (x : ℚ) / scaling), port')

/-- Registry entry (tc.py lines 32-59): optional write command code,
optional read command code, optional scaling factor. -/
structure Param where
  write_cmd : Option Nat
  read_cmd : Option Nat
  scaling : Option ℚ
deriving DecidableEq, Repr

namespace Parameter

/-- Model-code parameter, read command 0x00, unscaled. -/
def MODEL_CODE : Param := ⟨none, some 0x00, none⟩

/-- Alarm status parameter, read command 0x03, unscaled. -/
def STATUS_ALARM : Param := ⟨none, some 0x03, none⟩

/-- Control temperature, read command 0x01, tenths of a degree. -/
def TEMP_CONTROL_C : Param := ⟨none, some 0x01, some 10⟩

/-- Auxiliary temperature, read command 0x04, tenths of a degree. -/
def TEMP_AUX_C : Param := ⟨none, some 0x04, some 10⟩

/-- Temperature setpoint, write 0x1c, read 0x50, tenths of a degree. -/
def TEMP_SET_C : Param := ⟨some 0x1c, some 0x50, some 10⟩

/-- Proportional bandwidth, write 0x1d, read 0x51, tenths of a degree. -/
def BW_PROPORTIONAL : Param := ⟨some 0x1d, some 0x51, some 10⟩

/-- Integral gain, write 0x1e, read 0x52, hundredths of repeats per minute. -/
def GAIN_INTEGRAL : Param := ⟨some 0x1e, some 0x52, some 100⟩

/-- Differential gain, write 0x1f, read 0x53, hundredths of a minute. -/
def GAIN_DIFFERENTIAL : Param := ⟨some 0x1f, some 0x53, some 100⟩

/-- Output enable flag, write 0x30, read 0x64, unscaled. -/
def OUTPUT_ENABLE : Param := ⟨some 0x30, some 0x64, none⟩

/-- Output power fraction, read 0x02, scaled by 511. -/
def OUTPUT_POWER : Param := ⟨none, some 0x02, some 511⟩

end Parameter

/-- Embeds `read_property` (tc.py lines 105-113): read with payload 0,
unscaled values returned as integers; every exception is caught and turned
into `None`. -/
def read_property (port : PortState) (prop : Param) : Option ℚ × PortState :=
  match prop.scaling with
  | none =>
    let (r, p') := send_command port prop.read_cmd 0
    (r.map (fun x => (x : ℚ)), p')
  | some s => send_scaled_command port prop.read_cmd 0 s

/-- Embeds `write_property` (tc.py lines 115-123).  On the unscaled path
`struct.pack('>h', value)` insists on an integral value (it raises on a
non-integral float, which the surrounding `except` turns into `None` with
nothing written). -/
def write_property (port : PortState) (prop : Param) (value : ℚ) :
    Option ℚ × PortState :=
  match prop.scaling with
  | none =>
    if value.den = 1 then
      let (r, p') := send_command port prop.write_cmd value.num
      (r.map (fun x => (x : ℚ)), p')
    else (none, port)
  | some s => send_scaled_command port prop.write_cmd value s

/-! ## Session startup (tc.py lines 266-269 and 337-339) -/

/-- Subcommands of the tool. -/
inductive SubCmd
  | status
  | set
  | cycle
deriving DecidableEq, Repr

/-- Outcome of the session prologue: either the raised `Invalid controller`
exception reached the top-level handler, which reports it and calls
`sys.exit(1)`, or the session goes on to dispatch the requested
subcommand (the subcommand bodies themselves are not modelled here). -/
inductive SessionOutcome
  | aborted (exitCode : Nat) (port : PortState)
  | dispatched (sub : SubCmd) (port : PortState)
deriving DecidableEq, Repr

/-- Embeds the session prologue (tc.py lines 266-269): the very first
operation on the opened port reads `Parameter.MODEL_CODE`; any result other
than 9613 (including `None` from a failed read) raises, and the top-level
handler (lines 337-339) exits with status 1 before any subcommand code runs. -/
def sessionStart (port : PortState) (sub : SubCmd) : SessionOutcome :=
  let (r, port') := read_property port Parameter.MODEL_CODE
  if r = some 9613 then .dispatched sub port'
  else .aborted 1 port'

/-! ## Cycle controller (tc.py lines 170-242, 249-256) -/

/-- Embeds the `CycleState` enumeration (tc.py lines 170-172). -/
inductive CycleState
  | RAMPING
  | STABLE
deriving DecidableEq, Repr

/-- Observable interactions of the cycle loop with the port, through the
property accessor: the setpoint write issued by `ramp_to`
(tc.py lines 255-256), the temperature poll of `read_actual_temp` and the
power poll of `read_actual_power`.  A read is recorded when issued,
whatever its outcome. -/
inductive Ev
  | rampTo (t : ℚ)
  | readTemp
  | readPower
deriving DecidableEq, Repr

/-- Whether an event is a setpoint write. -/
def Ev.isRamp : Ev → Bool
  | .rampTo _ => true
  | _ => false

/-- Python runtime errors the loop body can raise: `TypeError` from
arithmetic on `None`, `IndexError`/`ZeroDivisionError` from an empty
cycle-point list. -/
inductive PyError
  | typeError
  | indexError
deriving DecidableEq, Repr

/-- Local state of `perform_cycles`.  Time is modelled by a rational clock
starting at 0 that advances by 1 on each `time.sleep(1)`. -/
structure CycleSt where
  cycleState : CycleState
  tempTarget : ℚ
  timeStart : ℚ
  timeStop : ℚ
  cyclesDone : Nat
  cycleIndex : Nat
  remaining : Option Int
  now : ℚ
  events : List Ev
deriving DecidableEq, Repr

/-- Embeds `STABLE_BAND` (tc.py line 175). -/
def STABLE_BAND : ℚ := 2 / 10

/-- Truth of `remaining > 0` for a non-`None` remaining count. -/
def remPos : Option Int → Bool
  | none => false
  | some k => decide (0 < k)

/-- Embeds the conditions `remaining is None or remaining > 0`
(tc.py lines 199 and 234). -/
def contCond (r : Option Int) : Bool :=
  r.isNone || remPos r

/-- Embeds `remaining is None or remaining > 0 and not dry_run`
(tc.py line 231), with Python precedence: `or` binds looser than `and`. -/
def rampCond (r : Option Int) (dryRun : Bool) : Bool :=
  r.isNone || (remPos r && !dryRun)

/-- Value of the temperature poll at the top of the loop body
(tc.py lines 200-203): a real poll returns the oracle value for this tick
(`none` models a failed read, which `read_property` converts to `None`);
a dry run substitutes the current target. -/
def pollValue (dryRun : Bool) (temps : ℕ → Option ℚ) (tick : ℕ) (s : CycleSt) :
    Option ℚ :=
  if dryRun then some s.tempTarget else temps tick

/-- Event-log effect of the temperature poll: a real poll issues one
accessor read on the port, a dry run touches nothing. -/
def pollState (dryRun : Bool) (s : CycleSt) : CycleSt :=
  if dryRun then s else { s with events := s.events ++ [.readTemp] }

/-- Embeds the state-machine block of the loop body (tc.py lines 206-232).
In the `RAMPING` arm, `abs(temp_current - temp_target)` raises `TypeError`
when the poll returned `None`.  In the `STABLE` arm, once the hold deadline
has passed the cycle index advances modulo the number of points, the target
is retargeted, the completed count is incremented (and the remaining count
decremented when bounded) exactly when the index wrapped to 0, and the
`ramp_to` write is issued under `rampCond`. -/
def stepMachine (dryRun : Bool) (points : List (ℚ × ℚ)) (tempCur : Option ℚ)
    (s : CycleSt) : Except PyError CycleSt :=
  match s.cycleState with
  | .RAMPING =>
    match tempCur with
    | none => .error .typeError
    | some t =>
      if |t - s.tempTarget| ≤ STABLE_BAND then
        .ok { s with
          timeStart := s.now
          cycleState := .STABLE
          timeStop := if dryRun then s.now else s.now + (points.getD s.cycleIndex (0, 0)).1 }
      else .ok s
  | .STABLE =>
    if s.timeStop ≤ s.now then
      if points.length = 0 then .error .indexError
      else
        let idx := (s.cycleIndex + 1) % points.length
        let s₁ := { s with
          cycleIndex := idx
          cycleState := CycleState.RAMPING
          tempTarget := (points.getD idx (0, 0)).2 }
        let s₂ :=
          if idx = 0 then
            { s₁ with cyclesDone := s₁.cyclesDone + 1, remaining := s₁.remaining.map (· - 1) }
          else s₁
        if rampCond s₂.remaining dryRun then
          .ok { s₂ with events := s₂.events ++ [.rampTo s₂.tempTarget] }
        else .ok s₂
    else .ok s

/-- Embeds the trailing block of the loop body (tc.py lines 234-242): when
the loop will continue, a real run polls the output power — a failed power
read yields `None` and the subsequent `100 * output_power` raises
`TypeError` — logs, and sleeps one second; a dry run substitutes -1 for the
power and only logs and sleeps. -/
def tailBlock (dryRun : Bool) (powers : ℕ → Option ℚ) (tick : ℕ) (s : CycleSt) :
    Except PyError CycleSt :=
  if contCond s.remaining then
    if dryRun then .ok { s with now := s.now + 1 }
    else
      match powers tick with
      | none => .error .typeError
      | some _ => .ok { s with events := s.events ++ [.readPower], now := s.now + 1 }
  else .ok s

/-- One full iteration of the `while` body of `perform_cycles`
(tc.py lines 200-242). -/
def loopBody (dryRun : Bool) (points : List (ℚ × ℚ)) (temps powers : ℕ → Option ℚ)
    (tick : ℕ) (s : CycleSt) : Except PyError CycleSt :=
  match stepMachine dryRun points (pollValue dryRun temps tick s) (pollState dryRun s) with
  | .error e => .error e
  | .ok s₂ => tailBlock dryRun powers tick s₂

/-- Result of running the loop: normal exit of the `while`, fuel exhaustion
of the bounded model, or an uncaught Python exception. -/
inductive RunResult
  | finished (s : CycleSt)
  | outOfFuel (s : CycleSt)
  | crashed (e : PyError)
deriving DecidableEq, Repr

/-- Whether a run result is a normal exit of the `while` loop. -/
def isFinished : RunResult → Bool
  | .finished _ => true
  | _ => false

/-- Fuel-bounded unfolding of the `while remaining is None or remaining > 0`
loop (tc.py line 199).  `tick` numbers the iterations and indexes the
poll oracles. -/
def runLoop (dryRun : Bool) (points : List (ℚ × ℚ)) (temps powers : ℕ → Option ℚ) :
    ℕ → ℕ → CycleSt → RunResult
  | 0, _, s => .outOfFuel s
  | fuel + 1, tick, s =>
    if contCond s.remaining then
      match loopBody dryRun points temps powers tick s with
      | .error e => .crashed e
      | .ok s' => runLoop dryRun points temps powers fuel (tick + 1) s'
    else .finished s

/-- Embeds `perform_cycles` (tc.py lines 174-242).  The port is abstracted
at the property-accessor boundary: `temps`/`powers` are the per-tick
outcomes of `read_actual_temp`/`read_actual_power` (with `none` a failed
read), and accessor calls are recorded in the event trace.  `nCycles` is
the `n_cycles` parameter of the source, which the body never uses: the
enforced limit is `argsCycles`, the globally parsed `args.cycles`
(tc.py line 198).  An empty cycle-point list makes `cycle_points[0][1]`
raise at line 180. -/
def perform_cycles (fuel : ℕ) (nCycles argsCycles : Option Int)
    (points : List (ℚ × ℚ)) (dryRun : Bool) (temps powers : ℕ → Option ℚ) :
    RunResult :=
  match points with
  | [] => .crashed .indexError
  | p :: _ =>
    let s₀ : CycleSt := {
      cycleState := .RAMPING
      tempTarget := p.2
      timeStart := 0
      timeStop := 0
      cyclesDone := 0
      cycleIndex := 0
      remaining := argsCycles
      now := 0
      events := if dryRun then [] else [.rampTo p.2] }
    runLoop dryRun points temps powers fuel 0 s₀

/-! ## Helper lemmas for the codec claims -/

/-- Hex digits round-trip through encoding for nibbles. -/
lemma unhexDigit_hexDigit (b : Nat) (h : b < 16) :
    unhexDigit (hexDigit b) = some b := by
  interval_cases b <;> rfl

/-- A hexlified byte round-trips through `unhexByte`. -/
lemma unhexByte_hexByte (b : Nat) (h : b < 256) :
    unhexByte (hexDigit (b / 16)) (hexDigit (b % 16)) = some b := by
  have h₁ : b / 16 < 16 := by omega
  have h₂ : b % 16 < 16 := Nat.mod_lt _ (by norm_num)
  unfold unhexByte
  rw [unhexDigit_hexDigit _ h₁, unhexDigit_hexDigit _ h₂]
  show some (16 * (b / 16) + b % 16) = some b
  simp only [Option.some.injEq]
  omega

/-- The two's-complement wrapping is undone by the signed reinterpretation
on the representable range. -/
lemma toI16_toU16 (v : Int) (h₁ : -32768 ≤ v) (h₂ : v ≤ 32767) :
    toI16 (toU16 v) = v := by
  unfold toI16 toU16
  split <;> omega

/-- The value image fits in 16 bits. -/
lemma toU16_lt (v : Int) : toU16 v < 65536 := by
  unfold toU16
  omega

/-! ## Claim theorems -/

/-- Claim C6 (corrected): the checksum byte of an encoded command frame is
the sum, mod 256, of all six ASCII-hex payload characters — the two
characters of the code byte and the four of the value — and is itself
hex-encoded at positions 7-8 of the frame.  (The claim's own count of four
payload characters is refuted by `c6_checksum_counterexample`.) -/
theorem c6_command_checksum_six_chars (code : Nat) (data : Int) :
    ((format_command code data).drop 7).take 2
      = hexByte (calc_checksum (((format_command code data).drop 1).take 6)) := rfl

/-- Claim C6 counterexample: for code 0 and value 0 the frame carries the
checksum characters for 0x20 (the sum of all six payload characters mod
256), not the characters for 0xc0 (the sum of only the four value
characters mod 256), so the claim's checksum-over-four-characters rule
does not describe `format_command`. -/
theorem c6_checksum_counterexample :
    ((format_command 0 0).drop 7).take 2 = [50, 48]
    ∧ hexByte (calc_checksum (((format_command 0 0).drop 3).take 4)) = [99, 48]
    ∧ (([50, 48] : List Nat) == [99, 48]) = false := by
  decide

/-- Claim C7: encoding any signed 16-bit value and re-parsing the
4-hex-character value field of the frame (positions 3-6, after the marker
and the code characters) as a big-endian signed 16-bit integer returns the
original value. -/
theorem c7_encode_reparse_roundtrip (code : Nat) (v : Int)
    (h₁ : -32768 ≤ v) (h₂ : v ≤ 32767) :
    reparse_value (((format_command code v).drop 3).take 4) = some v := by
  have hfield : ((format_command code v).drop 3).take 4
      = [hexDigit (toU16 v / 256 / 16), hexDigit (toU16 v / 256 % 16),
         hexDigit (toU16 v % 256 / 16), hexDigit (toU16 v % 256 % 16)] := rfl
  have hhi : toU16 v / 256 < 256 := by
    have := toU16_lt v
    omega
  have hlo : toU16 v % 256 < 256 := Nat.mod_lt _ (by norm_num)
  rw [hfield]
  show (match unhexByte (hexDigit (toU16 v / 256 / 16)) (hexDigit (toU16 v / 256 % 16)),
              unhexByte (hexDigit (toU16 v % 256 / 16)) (hexDigit (toU16 v % 256 % 16)) with
        | some hi, some lo => some (toI16 (hi * 256 + lo))
        | _, _ => none) = some v
  rw [unhexByte_hexByte _ hhi, unhexByte_hexByte _ hlo]
  show some (toI16 (toU16 v / 256 * 256 + toU16 v % 256)) = some v
  have hsplit : toU16 v / 256 * 256 + toU16 v % 256 = toU16 v := by omega
  rw [hsplit, toI16_toU16 v h₁ h₂]

/-- Claim C7 witness: the round-trip at code 0x1c and value -1234. -/
theorem c7_roundtrip_witness :
    reparse_value (((format_command 28 (-1234)).drop 3).take 4) = some (-1234) :=
  c7_encode_reparse_roundtrip 28 (-1234) (by decide) (by decide)

/-- Reduction of `parse_reply` on a structurally valid `XXXX` reply: the
locally computed checksum over the four value characters is 96 (0x60), and
it is compared against the transmitted checksum before the `XXXX` test. -/
lemma parse_reply_xxxx (c₀ c₁ : Nat) :
    parse_reply [42, 88, 88, 88, 88, c₀, c₁, 94]
      = match unhexByte c₀ c₁ with
        | none => Except.error ReplyError.nonHexDigit
        | some rchk =>
          if 96 ≠ rchk then Except.error ReplyError.checksumInvalid
          else Except.error ReplyError.commandRejected := by
  unfold parse_reply
  rw [if_neg (show ¬ _ from fun h => by rcases h with h | h | h <;> exact h rfl)]
  rw [show ([42, 88, 88, 88, 88, c₀, c₁, 94] : List Nat).getD 5 0 = c₀ from rfl,
      show ([42, 88, 88, 88, 88, c₀, c₁, 94] : List Nat).getD 6 0 = c₁ from rfl]
  rcases unhexByte c₀ c₁ with _ | k
  · rfl
  · simp [calc_checksum]

/-- Claim C2 (corrected): for an 8-byte reply with valid markers whose
value field is the literal `XXXX`, `parse_reply` fails with the
command-rejected error exactly when the transmitted checksum characters
decode to 0x60, the checksum of `XXXX`; when they decode to any other
value the locally computed checksum comparison fires first and the
reply-checksum error is raised instead (refuting the claim's phrase
"regardless of the transmitted checksum characters", see
`c2_bad_checksum_counterexample`). -/
theorem c2_xxxx_checksum_order (c₀ c₁ : Nat) :
    (unhexByte c₀ c₁ = some 96 →
      parse_reply [42, 88, 88, 88, 88, c₀, c₁, 94]
        = Except.error ReplyError.commandRejected)
    ∧ (∀ k, unhexByte c₀ c₁ = some k → k ≠ 96 →
      parse_reply [42, 88, 88, 88, 88, c₀, c₁, 94]
        = Except.error ReplyError.checksumInvalid) := by
  constructor
  · intro h
    rw [parse_reply_xxxx, h]
    rfl
  · intro k hk hne
    rw [parse_reply_xxxx, hk]
    have h96 : (96 : Nat) ≠ k := fun hh => hne hh.symm
    show (if (96 : Nat) ≠ k then Except.error ReplyError.checksumInvalid
          else Except.error ReplyError.commandRejected)
        = Except.error ReplyError.checksumInvalid
    rw [if_pos h96]

/-- Claim C2 witness: with transmitted checksum characters decoding to
0x60 the decode is command-rejected; with characters decoding to 0x01 it
is a reply-checksum failure. -/
theorem c2_xxxx_witness :
    parse_reply [42, 88, 88, 88, 88, 54, 48, 94]
      = Except.error ReplyError.commandRejected
    ∧ parse_reply [42, 88, 88, 88, 88, 48, 49, 94]
      = Except.error ReplyError.checksumInvalid :=
  ⟨(c2_xxxx_checksum_order 54 48).1 (by decide),
   (c2_xxxx_checksum_order 48 49).2 1 (by decide) (by decide)⟩

/-- Claim C2 counterexample: the `XXXX` reply with transmitted checksum
characters meaning 0x00 decodes to the reply-checksum error, not the
command-rejected error, so the claim does not hold regardless of the
transmitted checksum characters. -/
theorem c2_bad_checksum_counterexample :
    parse_reply [42, 88, 88, 88, 88, 48, 48, 94]
      = Except.error ReplyError.checksumInvalid := rfl

/-- Effect of `send_command` on the written log for an in-range command:
exactly the encoded frame is appended, whatever the reply. -/
lemma send_command_written (port : PortState) (c : Nat) (value : Int)
    (h : c ≤ 255 ∧ -32768 ≤ value ∧ value ≤ 32767) :
    (send_command port (some c) value).2.written
      = port.written ++ [format_command c value] := by
  obtain ⟨w, rs⟩ := port
  dsimp only [send_command]
  rw [if_pos h]
  cases rs with
  | nil => rfl
  | cons r rest =>
    cases hp : parse_reply (r.take 8) <;>
      simp [PortState.putFrame, PortState.getFrame, hp]

/-- Claim C3 (corrected): a scaled write encodes the raw integer obtained
by truncating `value * scaling` toward zero (Python `int()`), not by
rounding to nearest; for 23.5 at scaling 10 truncation and rounding agree
and raw 235 is encoded.  `c3_rounding_counterexample` refutes the claimed
`raw = round(engineering * scaling)` rule. -/
theorem c3_write_truncates_toward_zero (port : PortState) (rc : Option Nat)
    (w : Nat) (v sc : ℚ) (hw : w ≤ 255)
    (h₁ : -32768 ≤ pyInt (v * sc)) (h₂ : pyInt (v * sc) ≤ 32767) :
    (write_property port ⟨some w, rc, some sc⟩ v).2.written
      = port.written ++ [format_command w (pyInt (v * sc))]
    ∧ pyInt ((47 / 2 : ℚ) * 10) = 235 := by
  constructor
  · have hwr := send_command_written port w (pyInt (v * sc)) ⟨hw, h₁, h₂⟩
    rcases hsc : send_command port (some w) (pyInt (v * sc)) with ⟨r, p'⟩
    rw [hsc] at hwr
    show (send_scaled_command port (some w) v sc).2.written = _
    unfold send_scaled_command
    rw [hsc]
    exact hwr
  · norm_num [pyInt]

/-- Claim C3 witness: writing 23.5 through the setpoint parameter
(write code 0x1c, scaling 10) appends exactly the frame for the truncated
raw value, which is 235. -/
theorem c3_write_witness :
    (write_property ⟨[], []⟩ ⟨some 28, some 80, some 10⟩ (47 / 2)).2.written
      = [] ++ [format_command 28 (pyInt ((47 / 2 : ℚ) * 10))]
    ∧ pyInt ((47 / 2 : ℚ) * 10) = 235 :=
  c3_write_truncates_toward_zero ⟨[], []⟩ (some 80) 28 (47 / 2) 10
    (by decide) (by norm_num [pyInt]) (by norm_num [pyInt])

/-- Claim C3 counterexample: writing 23.56 at scaling 10 encodes raw 235
(truncation of 235.6) while rounding to nearest would give 236, and the
two raw values encode different frames — so a write does not encode
`round(engineering * scaling)`. -/
theorem c3_rounding_counterexample :
    (write_property ⟨[], []⟩ Parameter.TEMP_SET_C (2356 / 100)).2.written
      = [format_command 28 235]
    ∧ round ((2356 / 100 : ℚ) * 10) = 236
    ∧ (format_command 28 235 == format_command 28 236) = false := by
  have h1 : pyInt ((2356 / 100 : ℚ) * 10) = 235 := by norm_num [pyInt]
  refine ⟨?_, ?_, by decide⟩
  · have hwr := send_command_written ⟨[], []⟩ 28 (pyInt ((2356 / 100 : ℚ) * 10))
      ⟨by decide, by rw [h1]; decide, by rw [h1]; decide⟩
    rcases hsc : send_command ⟨[], []⟩ (some 28) (pyInt ((2356 / 100 : ℚ) * 10)) with ⟨r, p'⟩
    rw [hsc] at hwr
    show (send_scaled_command ⟨[], []⟩ (some 28) (2356 / 100) 10).2.written = _
    unfold send_scaled_command
    rw [hsc]
    rw [hwr, h1]
    simp
  · rw [show ((2356 / 100 : ℚ) * 10) = 1178 / 5 by norm_num, round_eq]
    rw [show ((1178 / 5 : ℚ) + 1 / 2) = 2361 / 10 by norm_num]
    norm_num

/-- Claim C8: whenever the model-identification read does not return 9613
(a different model code or a failed read), the session aborts with exit
status 1 directly after that very first read — the subcommand is never
dispatched and the only frame ever written is the model-code read frame
itself. -/
theorem c8_model_check_aborts (port : PortState) (sub : SubCmd)
    (h : (read_property port Parameter.MODEL_CODE).1 ≠ some 9613) :
    sessionStart port sub
      = SessionOutcome.aborted 1 (read_property port Parameter.MODEL_CODE).2 := by
  unfold sessionStart
  rcases hr : read_property port Parameter.MODEL_CODE with ⟨r, port'⟩
  rw [hr] at h
  simp only at h ⊢
  rw [if_neg h]

/-- Claim C8 witness: on a port that never answers (read timeout), the
model read yields `None`, which differs from 9613, and the session aborts
with exit code 1. -/
theorem c8_model_check_witness :
    sessionStart ⟨[], []⟩ SubCmd.status
      = SessionOutcome.aborted 1 (read_property ⟨[], []⟩ Parameter.MODEL_CODE).2 :=
  c8_model_check_aborts ⟨[], []⟩ SubCmd.status (by decide)

/-- Claim C1 (code bug): on the very first poll of a bounded two-point
run, a failed temperature read (`read_actual_temp` returns `None`) makes
the `RAMPING` arm evaluate `abs(None - temp_target)`, raising `TypeError`;
the exception propagates out of `perform_cycles` and the loop aborts,
instead of preserving the phase, target, deadline and counters and
retrying on the next tick as the specification requires. -/
theorem c1_failed_poll_aborts_loop :
    perform_cycles 3 (some 2) (some 2) [(0, 30), (0, 10)] false
      (fun _ => none) (fun _ => some 0)
      = RunResult.crashed PyError.typeError := by
  norm_num [perform_cycles, runLoop, loopBody, pollValue, pollState, stepMachine,
    tailBlock, contCond, remPos, rampCond, STABLE_BAND]

/-- Claim C4: with cycle points A = (30 °C, dwell 0) and B = (10 °C,
dwell 0), a cycle limit of 2, and a measured temperature equal to the
current target on every poll, the run finishes on its own with exactly 2
completed-cycle increments.  The event trace shows the setpoint writes:
the initial ramp to 30, then ramps at the three intermediate transitions
(10, 30, 10), and no further ramp after the transition that completes the
second cycle; the machine stops with `remaining = some 0`. -/
theorem c4_two_cycle_scenario :
    perform_cycles 12 (some 2) (some 2) [(0, 30), (0, 10)] false
      (fun n => some (([30, 30, 10, 10, 30, 30, 10, 10] : List ℚ).getD n 0))
      (fun _ => some 0)
    = RunResult.finished
        { cycleState := CycleState.RAMPING
          tempTarget := 30
          timeStart := 6
          timeStop := 6
          cyclesDone := 2
          cycleIndex := 0
          remaining := some 0
          now := 7
          events := [Ev.rampTo 30, Ev.readTemp, Ev.readPower,
                     Ev.readTemp, Ev.rampTo 10, Ev.readPower,
                     Ev.readTemp, Ev.readPower,
                     Ev.readTemp, Ev.rampTo 30, Ev.readPower,
                     Ev.readTemp, Ev.readPower,
                     Ev.readTemp, Ev.rampTo 10, Ev.readPower,
                     Ev.readTemp, Ev.readPower,
                     Ev.readTemp] } := by
  norm_num [perform_cycles, runLoop, loopBody, pollValue, pollState, stepMachine,
    tailBlock, contCond, remPos, rampCond, STABLE_BAND]

/-- Whatever the state-machine block does, it cannot introduce a bounded
remaining count: the only update is `remaining -= 1` guarded by
`remaining is not None`. -/
lemma stepMachine_remaining_none {dryRun : Bool} {points : List (ℚ × ℚ)}
    {tempCur : Option ℚ} {s s' : CycleSt}
    (h : stepMachine dryRun points tempCur s = Except.ok s')
    (hr : s.remaining = none) : s'.remaining = none := by
  unfold stepMachine at h
  split at h
  · split at h
    · exact absurd h (by simp)
    · split at h <;> (injection h with h'; subst h'; exact hr)
  · split at h
    · split at h
      · exact absurd h (by simp)
      · dsimp only at h
        split at h <;> split at h <;>
          (injection h with h'; subst h'; simp [hr])
    · injection h with h'
      subst h'
      exact hr

/-- The trailing log-and-sleep block never touches the remaining count. -/
lemma tailBlock_remaining {dryRun : Bool} {powers : ℕ → Option ℚ} {tick : ℕ}
    {s s' : CycleSt} (h : tailBlock dryRun powers tick s = Except.ok s') :
    s'.remaining = s.remaining := by
  unfold tailBlock at h
  split at h
  · split at h
    · injection h with h'
      subst h'
      rfl
    · split at h
      · exact absurd h (by simp)
      · injection h with h'
        subst h'
        rfl
  · injection h with h'
    subst h'
    rfl

/-- A successful loop iteration preserves an unbounded remaining count. -/
lemma loopBody_remaining_none {dryRun : Bool} {points : List (ℚ × ℚ)}
    {temps powers : ℕ → Option ℚ} {tick : ℕ} {s s' : CycleSt}
    (h : loopBody dryRun points temps powers tick s = Except.ok s')
    (hr : s.remaining = none) : s'.remaining = none := by
  unfold loopBody at h
  cases hsm : stepMachine dryRun points (pollValue dryRun temps tick s) (pollState dryRun s) with
  | error e => rw [hsm] at h; exact absurd h (by simp)
  | ok s₂ =>
    rw [hsm] at h
    have h₂ : s₂.remaining = none := by
      refine stepMachine_remaining_none hsm ?_
      unfold pollState
      split <;> exact hr
    rw [tailBlock_remaining h]
    exact h₂

/-- With an unbounded remaining count the `while` condition never becomes
false, so `runLoop` can only run out of fuel or crash, never finish. -/
lemma runLoop_none_not_finished (dryRun : Bool) (points : List (ℚ × ℚ))
    (temps powers : ℕ → Option ℚ) :
    ∀ (fuel tick : ℕ) (s : CycleSt), s.remaining = none →
      isFinished (runLoop dryRun points temps powers fuel tick s) = false := by
  intro fuel
  induction fuel with
  | zero => intro tick s _; rfl
  | succ n ih =>
    intro tick s hr
    unfold runLoop
    rw [show contCond s.remaining = true by rw [hr]; rfl]
    simp only [if_true]
    cases hb : loopBody dryRun points temps powers tick s with
    | error e => rfl
    | ok s' => exact ih (tick + 1) s' (loopBody_remaining_none hb hr)

/-- Claim C5: when the cycle-count limit is omitted (`args.cycles` is
`None`), `perform_cycles` never exits its loop of its own accord — for any
amount of fuel the bounded unfolding either runs out of fuel mid-loop or
crashes, but never reaches the loop's exit, because the loop condition
`remaining is None or remaining > 0` stays true and no completed-cycle
ceiling exists. -/
theorem c5_unbounded_never_terminates (fuel : ℕ) (nCycles : Option Int)
    (points : List (ℚ × ℚ)) (dryRun : Bool) (temps powers : ℕ → Option ℚ) :
    isFinished (perform_cycles fuel nCycles none points dryRun temps powers) = false := by
  unfold perform_cycles
  cases points with
  | nil => rfl
  | cons p ps => exact runLoop_none_not_finished dryRun (p :: ps) temps powers fuel 0 _ rfl

/-- Claim C9: the `n_cycles` parameter of `perform_cycles` has no
influence whatsoever on the run — the function body never reads it and
takes the enforced limit from the globally parsed `args.cycles` instead —
so two runs differing only in `n_cycles` are observably identical (same
result state and same port event trace). -/
theorem c9_ncycles_parameter_ignored (fuel : ℕ) (n₁ n₂ argsCycles : Option Int)
    (points : List (ℚ × ℚ)) (dryRun : Bool) (temps powers : ℕ → Option ℚ) :
    perform_cycles fuel n₁ argsCycles points dryRun temps powers
      = perform_cycles fuel n₂ argsCycles points dryRun temps powers := rfl

/-- The state-machine block touches the event log only through the
`ramp_to` setpoint write: any events it adds are a single ramp event. -/
lemma stepMachine_events {dryRun : Bool} {points : List (ℚ × ℚ)}
    {tempCur : Option ℚ} {s s' : CycleSt}
    (h : stepMachine dryRun points tempCur s = Except.ok s') :
    s'.events = s.events ∨ ∃ t, s'.events = s.events ++ [Ev.rampTo t] := by
  unfold stepMachine at h
  split at h
  · split at h
    · exact absurd h (by simp)
    · split at h <;> (injection h with h'; subst h'; exact Or.inl rfl)
  · split at h
    · split at h
      · exact absurd h (by simp)
      · dsimp only at h
        split at h <;> split at h <;>
          (injection h with h'; subst h')
        · exact Or.inr ⟨_, rfl⟩
        · exact Or.inl rfl
        · exact Or.inr ⟨_, rfl⟩
        · exact Or.inl rfl
    · injection h with h'
      subst h'
      exact Or.inl rfl

/-- In a dry run the trailing block only advances the clock: it issues no
power read and leaves the event log unchanged. -/
lemma tailBlock_dry_events {powers : ℕ → Option ℚ} {tick : ℕ} {s s' : CycleSt}
    (h : tailBlock true powers tick s = Except.ok s') : s'.events = s.events := by
  unfold tailBlock at h
  split at h
  · rw [if_pos rfl] at h
    injection h with h'
    subst h'
    rfl
  · injection h with h'
    subst h'
    rfl

/-- A dry-run poll issues no accessor read and leaves the state untouched. -/
lemma pollState_dry (s : CycleSt) : pollState true s = s := rfl

/-- Claim C10: with `dry_run=True` (first conjunct) the initial setpoint
write is suppressed and (second conjunct) the loop body never issues a
temperature or power read — the only port traffic a dry-run iteration can
produce is a `ramp_to` setpoint write; yet (third conjunct) when the
cycle-count limit is `None`, a cycle-point transition still issues the
`ramp_to` write on the port, because the guard
`remaining is None or remaining > 0 and not dry_run` short-circuits on
`remaining is None` before the dry-run test is reached. -/
theorem c10_dry_run_still_ramps_when_unbounded
    (points : List (ℚ × ℚ)) (temps powers : ℕ → Option ℚ) (tick : ℕ)
    (q : ℚ × ℚ) (qs : List (ℚ × ℚ)) (nC aC : Option Int) (s : CycleSt)
    (hst : s.cycleState = CycleState.STABLE)
    (hrem : s.remaining = none)
    (ht : s.timeStop ≤ s.now)
    (hpts : points.length ≠ 0) :
    (∀ s₀, perform_cycles 0 nC aC (q :: qs) true temps powers = RunResult.outOfFuel s₀ →
      s₀.events = [])
    ∧ (∀ s₂ s₂', loopBody true points temps powers tick s₂ = Except.ok s₂' →
        s₂'.events = s₂.events ∨ ∃ t, s₂'.events = s₂.events ++ [Ev.rampTo t])
    ∧ (∃ s', loopBody true points temps powers tick s = Except.ok s'
        ∧ s'.events = s.events
            ++ [Ev.rampTo (points.getD ((s.cycleIndex + 1) % points.length) (0, 0)).2]) := by
  refine ⟨?_, ?_, ?_⟩
  · intro s₀ h
    dsimp only [perform_cycles, runLoop] at h
    cases h
    rfl
  · intro s₂ s₂' h
    unfold loopBody at h
    cases hsm : stepMachine true points (pollValue true temps tick s₂) (pollState true s₂) with
    | error e => rw [hsm] at h; exact absurd h (by simp)
    | ok sm =>
      rw [hsm] at h
      rw [pollState_dry] at hsm
      rw [tailBlock_dry_events h]
      exact stepMachine_events hsm
  · by_cases hidx : (s.cycleIndex + 1) % points.length = 0
    · refine ⟨⟨CycleState.RAMPING, (points.getD ((s.cycleIndex + 1) % points.length) (0, 0)).2,
        s.timeStart, s.timeStop, s.cyclesDone + 1, (s.cycleIndex + 1) % points.length, none,
        s.now + 1,
        s.events ++ [Ev.rampTo (points.getD ((s.cycleIndex + 1) % points.length) (0, 0)).2]⟩,
        ?_, rfl⟩
      simp [loopBody, pollValue, pollState, stepMachine, tailBlock, contCond,
        rampCond, remPos, hst, hrem, ht, hpts, hidx]
    · refine ⟨⟨CycleState.RAMPING, (points.getD ((s.cycleIndex + 1) % points.length) (0, 0)).2,
        s.timeStart, s.timeStop, s.cyclesDone, (s.cycleIndex + 1) % points.length, none,
        s.now + 1,
        s.events ++ [Ev.rampTo (points.getD ((s.cycleIndex + 1) % points.length) (0, 0)).2]⟩,
        ?_, rfl⟩
      simp [loopBody, pollValue, pollState, stepMachine, tailBlock, contCond,
        rampCond, remPos, hst, hrem, ht, hpts, hidx]

/-- Claim C10 witness: a concrete dry-run state at cycle index 1 of a
two-point list, with unbounded remaining count and an expired hold
deadline, issues the ramp to 30 even though the run is dry. -/
theorem c10_dry_run_witness :
    (∀ s₀, perform_cycles 0 none none [(0, 30), (0, 10)] true
        (fun _ => some 0) (fun _ => some 0) = RunResult.outOfFuel s₀ →
      s₀.events = [])
    ∧ (∀ s₂ s₂', loopBody true [(0, 30), (0, 10)] (fun _ => some 0) (fun _ => some 0) 0 s₂
          = Except.ok s₂' →
        s₂'.events = s₂.events ∨ ∃ t, s₂'.events = s₂.events ++ [Ev.rampTo t])
    ∧ (∃ s', loopBody true [(0, 30), (0, 10)] (fun _ => some 0) (fun _ => some 0) 0
          ⟨CycleState.STABLE, 10, 0, 0, 0, 1, none, 0, []⟩ = Except.ok s'
        ∧ s'.events = [Ev.rampTo 30]) :=
  c10_dry_run_still_ramps_when_unbounded [(0, 30), (0, 10)] (fun _ => some 0)
    (fun _ => some 0) 0 (0, 30) [(0, 10)]
    none none ⟨CycleState.STABLE, 10, 0, 0, 0, 1, none, 0, []⟩
    rfl rfl (le_refl 0) (by decide)
